import Mathlib

/-!
Verification of the library lending-and-fee core
(`library_service.py` and the payment orchestration it feeds).

Shallow embedding: Python dicts/rows become structures, the SQLite
storage collaborator becomes an explicit `DB` value threaded through the
service functions, and fallible storage writes are modelled by boolean
oracle parameters (the service code only ever observes the boolean
result of a write).  Monetary amounts are rationals: every float
operation the fee code performs (multiples of 0.50 up to 15.00,
`round(x, 2)`) is exact in IEEE doubles on the reachable values, so ℚ is
a faithful model.  Python's `round(x, 2)` rounds half-to-even, but on
every reachable value `x * 100` is an integer, so any
nearest-integer rounding agrees; `round2` below uses round-half-up.
-/

namespace LibSys

/-- `round(x, 2)` of Python, on rationals: round `q * 100` to the nearest
integer and divide back.  On reachable fee values `q * 100` is an integer,
so the tie-breaking rule is irrelevant. -/
def round2 (q : ℚ) : ℚ := ((round (q * 100) : ℤ) : ℚ) / 100

/-- The tiered late-fee formula, from `library_service.py` lines 176-182
(the identical inline formula also appears at lines 130-134 and 246-252):
`$0.50/day` for the first 7 days, `$1.00/day` thereafter, capped at `$15.00`,
rounded to 2 decimals; zero when not overdue. -/
def computeFee (days_overdue : ℤ) : ℚ :=
  if days_overdue ≤ 0 then 0
  else
    round2 (min (((min days_overdue 7 : ℤ) : ℚ) * 0.50 +
                 ((max (days_overdue - 7) 0 : ℤ) : ℚ) * 1.00) 15.00)

/-- The same fee in integer cents, used as a proof-side normal form. -/
def feeCents (n : ℕ) : ℕ :=
  if n = 0 then 0 else min (min n 7 * 50 + (n - 7) * 100) 1500

/-- The late-fee formula exactly as the spec's §4.1 sentence states it
(`fee = min(min(daysOverdue, 7) * 0.50 + max(daysOverdue − 7, 0) * 1.00,
15.00)`, rounded to 2 decimal places), written independently of the
implementation for comparison against `computeFee`. -/
def specFeeFormula (d : ℤ) : ℚ :=
  round2 (min (((min d 7 : ℤ) : ℚ) * 0.50 + ((max (d - 7) 0 : ℤ) : ℚ) * 1.00) 15.00)

/-! ## Data model

Dates are days since an epoch (`ℤ`); only differences of dates in whole
days matter to the code.  A date column as it sits in a storage row can
be null/empty (falsy in Python), present but unparseable by
`datetime.fromisoformat`, or parseable to a date. -/

inductive PyDate where
  | null : PyDate
  | malformed : PyDate
  | valid : ℤ → PyDate
deriving Repr, DecidableEq

/-- Python truthiness of the stored column value. -/
def PyDate.truthy : PyDate → Bool
  | .null => false
  | .malformed => true
  | .valid _ => true

/-- `datetime.fromisoformat(str(v)).date()`: `some` when it parses,
`none` when it raises. -/
def PyDate.parse : PyDate → Option ℤ
  | .null => none
  | .malformed => none
  | .valid d => some d

/-- A row of the `books` table. -/
structure Book where
  id : ℕ
  title : String
  author : String
  isbn : String
  total_copies : ℤ
  available_copies : ℤ
deriving Repr, DecidableEq

/-- A row of the `borrow_records` table.  `return_date` is `PyDate.null`
while the borrow is active. -/
structure BorrowRecord where
  patron_id : String
  book_id : ℕ
  borrow_date : ℤ
  due_date : PyDate
  return_date : PyDate
deriving Repr, DecidableEq

/-- A borrow record is active while its `return_date` is falsy. -/
def BorrowRecord.isActive (r : BorrowRecord) : Bool := !r.return_date.truthy

/-- The storage collaborator's state: the two tables plus the id counter
backing the `books` auto-increment primary key.  `database.py` is the
external Storage Collaborator of the spec (§2, §6); its operations below
are modelled from the contract in spec §6. -/
structure DB where
  books : List Book
  records : List BorrowRecord
  nextId : ℕ
deriving Repr, DecidableEq

def DB.empty : DB := ⟨[], [], 1⟩

/-- Modelled from the spec: `getBookById(id) → Book | null` (§6); ids are
a primary key, so at most one row matches. -/
def getBookById (db : DB) (book_id : ℕ) : Option Book :=
  db.books.find? (fun b => b.id == book_id)

/-- Modelled from the spec: `getBookByIsbn(isbn) → Book | null` (§6). -/
def getBookByIsbn (db : DB) (isbn : String) : Option Book :=
  db.books.find? (fun b => b.isbn == isbn)

/-- Modelled from the spec: `insertBook(title, author, isbn, totalCopies,
availableCopies) → bool` (§6), assigning the next auto-increment id. -/
def insertBook (db : DB) (title author isbn : String) (total available : ℤ) : DB :=
  { db with
    books := db.books ++ [⟨db.nextId, title, author, isbn, total, available⟩]
    nextId := db.nextId + 1 }

/-- Modelled from the spec: `updateBookAvailability(bookId, delta) → bool`
(§6): adds `delta` to the matching row's `available_copies`. -/
def updateBookAvailability (db : DB) (book_id : ℕ) (delta : ℤ) : DB :=
  { db with
    books := db.books.map (fun b =>
      if b.id == book_id then { b with available_copies := b.available_copies + delta } else b) }

/-- Modelled from the spec: `insertBorrowRecord(patronId, bookId,
borrowDate, dueDate) → bool` (§6); a fresh record is active. -/
def insertBorrowRecord (db : DB) (patron_id : String) (book_id : ℕ)
    (borrow_date due_date : ℤ) : DB :=
  { db with records := db.records ++ [⟨patron_id, book_id, borrow_date, .valid due_date, .null⟩] }

/-- Modelled from the spec: `getPatronBorrowCount(patronId) → int` (§6),
the patron's current active-borrow count (spec §4.2). -/
def getPatronBorrowCount (db : DB) (patron_id : String) : ℕ :=
  (db.records.filter (fun r => r.patron_id == patron_id && r.isActive)).length

/-- Sets `return_date` on the first active record for the pair, returning
the updated row and the new table, or `none` when no active record exists. -/
def setReturnDate (rs : List BorrowRecord) (patron_id : String) (book_id : ℕ)
    (d : ℤ) : Option (BorrowRecord × List BorrowRecord) :=
  match rs with
  | [] => none
  | r :: rest =>
    if r.patron_id == patron_id && r.book_id == book_id && r.isActive then
      let r' := { r with return_date := PyDate.valid d }
      some (r', r' :: rest)
    else
      match setReturnDate rest patron_id book_id d with
      | none => none
      | some (r', rest') => some (r', r :: rest')

/-- Modelled from the spec: `updateBorrowRecordReturnDate(patronId, bookId,
returnDate) → BorrowRecord | false` with a non-null date (§6): marks the
active record returned and yields the updated row. -/
def updateBorrowRecordReturnDate (db : DB) (patron_id : String) (book_id : ℕ)
    (d : ℤ) : Option (BorrowRecord × DB) :=
  match setReturnDate db.records patron_id book_id d with
  | none => none
  | some (r, rs) => some (r, { db with records := rs })

/-- Modelled from the spec: `updateBorrowRecordReturnDate(patronId, bookId,
null)` "acts as a read of the active/most-recent record without mutating"
(§6): the active record if one exists, else the most recent row for the
pair. -/
def readBorrowRecord (db : DB) (patron_id : String) (book_id : ℕ) : Option BorrowRecord :=
  match db.records.find? (fun r => r.patron_id == patron_id && r.book_id == book_id && r.isActive) with
  | some r => some r
  | none => (db.records.filter (fun r => r.patron_id == patron_id && r.book_id == book_id)).getLast?

/-! ## Service layer (`library_service.py`) -/

/-- Python `str.isdigit()`: nonempty and all characters digits (stated on
the string's character list). -/
def pyIsDigit (s : String) : Bool := !s.data.isEmpty && s.data.all Char.isDigit

/-- Python `str.strip()`: drop whitespace from both ends. -/
def pyStrip (s : String) : String :=
  ⟨((s.data.dropWhile Char.isWhitespace).reverse.dropWhile Char.isWhitespace).reverse⟩

/-- Python `len(s)`. -/
def pyLen (s : String) : ℕ := s.data.length

/-- The patron-id check shared by the service functions:
`not patron_id or not patron_id.isdigit() or len(patron_id) != 6` negated. -/
def validPatronId (s : String) : Bool := !s.data.isEmpty && pyIsDigit s && pyLen s == 6

/-- The add-book success message; `library_service.py` line 39 and line 43
produce this same string. -/
def addSuccessMsg (title : String) : String :=
  "Book \"" ++ pyStrip title ++ "\" has been successfully added to the catalog."

/-- `add_book_to_catalog` (`library_service.py` lines 15-45).  `insertOk`
is the boolean result of the storage collaborator's `insert_book` write;
the write mutates nothing when it reports failure. -/
def add_book_to_catalog (insertOk : Bool) (db : DB) (title author isbn : String)
    (total_copies : ℤ) : Bool × String × DB :=
  if title.data.isEmpty || (pyStrip title).data.isEmpty then (false, "Title is required.", db)
  else if 200 < pyLen (pyStrip title) then (false, "Title must be less than 200 characters.", db)
  else if author.data.isEmpty || (pyStrip author).data.isEmpty then (false, "Author is required.", db)
  else if 100 < pyLen (pyStrip author) then (false, "Author must be less than 100 characters.", db)
  else if !(pyLen isbn == 13 && pyIsDigit isbn) then (false, "ISBN must be exactly 13 digits.", db)
  else if total_copies ≤ 0 then (false, "Total copies must be a positive integer.", db)
  else
    match getBookByIsbn db isbn with
    | some _ => (true, addSuccessMsg title, db)
    | none =>
      if insertOk then
        (true, addSuccessMsg title,
          insertBook db (pyStrip title) (pyStrip author) isbn total_copies total_copies)
      else (false, "Database error occurred while adding the book.", db)

/-- `borrow_book_by_patron` (`library_service.py` lines 48-85).  `now` is
`datetime.now()` as an epoch day; `insertOk` and `updateOk` are the boolean
results of `insert_borrow_record` and `update_book_availability`; a failed
write mutates nothing.  The due-date suffix of the success message renders
the epoch day in place of `strftime("%Y-%m-%d")`. -/
def borrow_book_by_patron (insertOk updateOk : Bool) (db : DB) (now : ℤ)
    (patron_id : String) (book_id : ℕ) : Bool × String × DB :=
  if !(validPatronId patron_id) then (false, "Invalid patron ID. Must be exactly 6 digits.", db)
  else
    match getBookById db book_id with
    | none => (false, "Book not found.", db)
    | some book =>
      if book.available_copies ≤ 0 then (false, "This book is currently not available.", db)
      else if 5 ≤ getPatronBorrowCount db patron_id then
        (false, "You have reached the maximum borrowing limit of 5 books.", db)
      else
        let due_date := now + 14
        if !insertOk then (false, "Database error occurred while creating borrow record.", db)
        else
          let db1 := insertBorrowRecord db patron_id book_id now due_date
          if !updateOk then
            (false, "Database error occurred while updating book availability.", db1)
          else
            (true, "Successfully borrowed \"" ++ book.title ++ "\". Due date: " ++
              toString due_date ++ ".", updateBookAvailability db1 book_id (-1))

/-- `return_book_by_patron` (`library_service.py` lines 91-140).  The fee
block (lines 125-136) wraps the due-date parse in `try/except`, so a
malformed due date degrades to zero days and zero fee. -/
def return_book_by_patron (updateOk : Bool) (db : DB) (now : ℤ)
    (patron_id : String) (book_id : ℕ) : Bool × String × DB :=
  if !(validPatronId patron_id) then (false, "Invalid patron ID. Must be exactly 6 digits.", db)
  else
    match getBookById db book_id with
    | none => (false, "Book not found.", db)
    | some book =>
      match updateBorrowRecordReturnDate db patron_id book_id now with
      | none => (false, "No active borrow record found for this patron and book.", db)
      | some (updated, db1) =>
        match getBookById db1 book_id with
        | none => (false, "Book not found during update.", db1)
        | some fresh =>
          let finish : DB → Bool × String × DB := fun db2 =>
            let days_overdue : ℤ :=
              (updated.due_date.parse.map (fun due => max 0 (now - due))).getD 0
            let fee := computeFee days_overdue
            if 0 < days_overdue && 0 < fee then
              (true, "Returned \"" ++ book.title ++ "\". " ++ toString days_overdue ++
                " day(s) overdue. Late fee: $" ++ toString fee ++ ".", db2)
            else
              (true, "Returned \"" ++ book.title ++ "\" on time. No late fee.", db2)
          if fresh.available_copies < fresh.total_copies then
            if !updateOk then (false, "Database error while updating book availability.", db1)
            else finish (updateBookAvailability db1 book_id 1)
          else finish db1

/-- A FeeQuote as returned by `calculate_late_fee_for_book`. -/
structure FeeQuote where
  fee_amount : ℚ
  days_overdue : ℤ
  status : String
deriving Repr, DecidableEq

def noRecordQuote : FeeQuote :=
  ⟨0, 0, "No active/known borrow record or due date unavailable."⟩

/-- `calculate_late_fee_for_book` (`library_service.py` lines 142-184).
The result is `Except`: `.error` models an exception escaping the
function — the due-date parse at line 165 is not inside any `try`, so an
unparseable due date raises `ValueError` to the caller, while the
return-date parse (lines 167-170) is guarded and falls back to today. -/
def calculate_late_fee_for_book (db : DB) (today : ℤ) (patron_id : String)
    (book_id : ℕ) : Except String FeeQuote :=
  if !(validPatronId patron_id) then
    .ok ⟨0, 0, "Invalid patron ID. Must be exactly 6 digits."⟩
  else
    match getBookById db book_id with
    | none => .ok ⟨0, 0, "Book not found."⟩
    | some _ =>
      match readBorrowRecord db patron_id book_id with
      | none => .ok noRecordQuote
      | some row =>
        if !row.due_date.truthy then .ok noRecordQuote
        else
          match row.due_date.parse with
          | none => .error "ValueError: invalid isoformat string"
          | some due =>
            let asof_status : ℤ × String :=
              if row.return_date.truthy then
                (row.return_date.parse.getD today,
                  "Returned; historical fee at return date calculated.")
              else (today, "Not yet returned; fee calculated as of today.")
            let days := max 0 (asof_status.1 - due)
            .ok ⟨computeFee days, days, asof_status.2⟩

/-! ## Payment orchestrator -/

/-- One invocation of the gateway's `process_payment`. -/
structure GatewayCall where
  patron_id : String
  amount : ℚ
  description : String
deriving Repr, DecidableEq

/-- A gateway's reaction to a `process_payment` call: it may raise, or
return `(success, transaction_id, message)`. -/
inductive GwReply where
  | raises : GwReply
  | returns : Bool → String → String → GwReply
deriving Repr, DecidableEq

/-- Modelled from the spec: `payLateFees(patronId, bookId, gateway?)`
(spec §4.4) — its source, `services/library_services.py`, is not under
`src/`; only its tests (`src/tests/test_payment_mock_stub.py`) are.  The
fee quote and the book lookup are passed in as values, exactly as the
tests stub those collaborators; `quote = none` models a quote lacking the
fee field.  The result pairs the `(success, message, transaction_id)`
triple with the list of gateway calls made.  (The charge description in
the source wraps the title in single quotes; the quotes are dropped
here.) -/
def pay_late_fees (patron_id : String) (quote : Option FeeQuote) (book : Option Book)
    (gw : GatewayCall → GwReply) : (Bool × String × Option String) × List GatewayCall :=
  match quote with
  | none => ((false, "Unable to calculate late fee.", none), [])
  | some q =>
    if q.fee_amount = 0 then ((false, "No late fees owed.", none), [])
    else
      match book with
      | none => ((false, "Book not found.", none), [])
      | some bk =>
        let call : GatewayCall := ⟨patron_id, q.fee_amount, "Late fees for " ++ bk.title⟩
        match gw call with
        | .raises => ((false, "Payment processing error.", none), [call])
        | .returns ok txn msg =>
          if ok then ((true, msg, some txn), [call]) else ((false, msg, none), [call])

/-! ## Operation sequences and the availability invariant -/

/-- One public mutating operation on the store, with the storage-write
oracles it consumes. -/
inductive Op where
  | add : Bool → String → String → String → ℤ → Op
  | borrow : Bool → Bool → String → ℕ → ℤ → Op
  | ret : Bool → String → ℕ → ℤ → Op
deriving Repr

/-- Runs one operation, keeping the resulting store. -/
def applyOp (db : DB) : Op → DB
  | .add insertOk title author isbn tc => (add_book_to_catalog insertOk db title author isbn tc).2.2
  | .borrow insertOk updateOk p bid now => (borrow_book_by_patron insertOk updateOk db now p bid).2.2
  | .ret updateOk p bid now => (return_book_by_patron updateOk db now p bid).2.2

def applySeq (ops : List Op) : DB := ops.foldl applyOp DB.empty

/-- The spec §3 availability bound, for every book row. -/
def AvailOk (db : DB) : Prop :=
  ∀ b ∈ db.books, 0 ≤ b.available_copies ∧ b.available_copies ≤ b.total_copies

/-- The inductive well-formedness the operations maintain: the
availability bound, ids below the auto-increment counter, and distinct
ids (the primary key). -/
def Wf (db : DB) : Prop :=
  (∀ b ∈ db.books, 0 ≤ b.available_copies ∧ b.available_copies ≤ b.total_copies ∧
    b.id < db.nextId) ∧ (db.books.map Book.id).Nodup

/-! ## Fee-policy lemmas -/

theorem round2_int_div (k : ℤ) : round2 ((k : ℚ) / 100) = (k : ℚ) / 100 := by
  unfold round2
  rw [div_mul_cancel₀ _ (by norm_num : (100 : ℚ) ≠ 0), round_intCast]

theorem computeFee_eq_feeCents (d : ℤ) :
    computeFee d = ((feeCents d.toNat : ℕ) : ℚ) / 100 := by
  unfold computeFee feeCents
  rcases le_or_lt d 0 with h | h
  · rw [if_pos h, if_pos (by omega : d.toNat = 0)]
    norm_num
  · rw [if_neg (by omega), if_neg (by omega)]
    have hk : (((min d 7 : ℤ) : ℚ) * 0.50 + ((max (d - 7) 0 : ℤ) : ℚ) * 1.00) =
        ((min d 7 * 50 + max (d - 7) 0 * 100 : ℤ) : ℚ) / 100 := by
      push_cast
      ring
    have hmin : min (((min d 7 : ℤ) : ℚ) * 0.50 + ((max (d - 7) 0 : ℤ) : ℚ) * 1.00) 15.00 =
        ((min (min d 7 * 50 + max (d - 7) 0 * 100) 1500 : ℤ) : ℚ) / 100 := by
      rw [hk, show (15.00 : ℚ) = ((1500 : ℤ) : ℚ) / 100 by norm_num,
        min_div_div_right (by norm_num : (0:ℚ) ≤ 100)]
      norm_cast
    have hnat : (min (min d 7 * 50 + max (d - 7) 0 * 100) 1500 : ℤ) =
        ((min (min d.toNat 7 * 50 + (d.toNat - 7) * 100) 1500 : ℕ) : ℤ) := by
      omega
    rw [hmin, round2_int_div, hnat]
    push_cast
    ring

theorem feeCents_mono {n m : ℕ} (h : n ≤ m) : feeCents n ≤ feeCents m := by
  unfold feeCents
  split_ifs <;> omega

theorem feeCents_le_1500 (n : ℕ) : feeCents n ≤ 1500 := by
  unfold feeCents
  split_ifs <;> omega

theorem computeFee_mono {d e : ℤ} (h : d ≤ e) : computeFee d ≤ computeFee e := by
  rw [computeFee_eq_feeCents, computeFee_eq_feeCents]
  have hc : ((feeCents d.toNat : ℕ) : ℚ) ≤ ((feeCents e.toNat : ℕ) : ℚ) :=
    Nat.cast_le.mpr (feeCents_mono (by omega))
  exact div_le_div_of_nonneg_right hc (by norm_num) |>.trans_eq rfl

theorem computeFee_le_15 (d : ℤ) : computeFee d ≤ 15 := by
  rw [computeFee_eq_feeCents]
  have hc : ((feeCents d.toNat : ℕ) : ℚ) ≤ 1500 := by
    exact_mod_cast Nat.cast_le.mpr (feeCents_le_1500 d.toNat)
  calc ((feeCents d.toNat : ℕ) : ℚ) / 100 ≤ 1500 / 100 :=
        div_le_div_of_nonneg_right hc (by norm_num) |>.trans_eq rfl
    _ = 15 := by norm_num

theorem computeFee_nonneg (d : ℤ) : 0 ≤ computeFee d := by
  rw [computeFee_eq_feeCents]
  positivity

theorem Wf.availOk {db : DB} (h : Wf db) : AvailOk db :=
  fun b hb => ⟨(h.1 b hb).1, (h.1 b hb).2.1⟩

theorem wf_empty : Wf DB.empty := by
  constructor
  · intro b hb
    simp [DB.empty] at hb
  · simp [DB.empty]

theorem getBookById_mem {db : DB} {i : ℕ} {b : Book} (h : getBookById db i = some b) :
    b ∈ db.books ∧ b.id = i := by
  unfold getBookById at h
  refine ⟨List.mem_of_find?_eq_some h, ?_⟩
  have := List.find?_some h
  simpa using this

theorem book_eq_of_same_id {db : DB} (hwf : Wf db) {b b' : Book}
    (hb : b ∈ db.books) (hb' : b' ∈ db.books) (hid : b.id = b'.id) : b = b' :=
  List.inj_on_of_nodup_map hwf.2 hb hb' hid

/-- Updating availability keeps all ids and the id counter. -/
theorem updateBookAvailability_shape (db : DB) (i : ℕ) (δ : ℤ) :
    (updateBookAvailability db i δ).books.map Book.id = db.books.map Book.id ∧
    (updateBookAvailability db i δ).nextId = db.nextId ∧
    (updateBookAvailability db i δ).records = db.records := by
  refine ⟨?_, rfl, rfl⟩
  unfold updateBookAvailability
  simp only [List.map_map]
  apply List.map_congr_left
  intro b _
  by_cases hb : b.id = i <;> simp [hb]

theorem wf_updateBookAvailability {db : DB} {i : ℕ} {δ : ℤ} {b₀ : Book}
    (hwf : Wf db) (hfind : getBookById db i = some b₀)
    (hlo : 0 ≤ b₀.available_copies + δ) (hhi : b₀.available_copies + δ ≤ b₀.total_copies) :
    Wf (updateBookAvailability db i δ) := by
  obtain ⟨hmem₀, hid₀⟩ := getBookById_mem hfind
  constructor
  · intro b hb
    unfold updateBookAvailability at hb
    simp only at hb
    rw [List.mem_map] at hb
    obtain ⟨c, hc, hcb⟩ := hb
    by_cases hci : c.id == i
    · have hceq : c = b₀ := book_eq_of_same_id hwf hc hmem₀ (by simpa [hid₀] using hci)
      rw [if_pos hci] at hcb
      subst hcb
      subst hceq
      exact ⟨hlo, hhi, (hwf.1 c hc).2.2⟩
    · rw [if_neg hci] at hcb
      subst hcb
      exact hwf.1 c hc
  · rw [(updateBookAvailability_shape db i δ).1]
    exact hwf.2

theorem wf_insertBook {db : DB} {title author isbn : String} {tc : ℤ}
    (hwf : Wf db) (htc : 0 < tc) : Wf (insertBook db title author isbn tc tc) := by
  constructor
  · intro b hb
    unfold insertBook at hb
    simp only [List.mem_append, List.mem_singleton] at hb
    rcases hb with hb | hb
    · have := hwf.1 b hb
      exact ⟨this.1, this.2.1, by simp [insertBook]; omega⟩
    · subst hb
      exact ⟨htc.le, le_refl _, Nat.lt_succ_self _⟩
  · unfold insertBook
    simp only [List.map_append, List.map_cons, List.map_nil]
    rw [List.nodup_append]
    refine ⟨hwf.2, List.nodup_singleton _, ?_⟩
    intro x hx hx'
    simp only [List.mem_singleton] at hx'
    subst hx'
    rw [List.mem_map] at hx
    obtain ⟨c, hc, hci⟩ := hx
    have := (hwf.1 c hc).2.2
    omega

/-- A records-only update leaves well-formedness untouched. -/
theorem wf_records {db : DB} (rs : List BorrowRecord) (hwf : Wf db) :
    Wf { db with records := rs } := hwf

theorem updateBorrowRecordReturnDate_books {db : DB} {p : String} {i : ℕ} {d : ℤ}
    {r : BorrowRecord} {db' : DB}
    (h : updateBorrowRecordReturnDate db p i d = some (r, db')) :
    db'.books = db.books ∧ db'.nextId = db.nextId := by
  unfold updateBorrowRecordReturnDate at h
  cases hset : setReturnDate db.records p i d with
  | none => rw [hset] at h; exact absurd h (by simp)
  | some pr =>
    rw [hset] at h
    cases pr with
    | mk r' rs' =>
      simp only [Option.some.injEq, Prod.mk.injEq] at h
      rw [← h.2]
      exact ⟨rfl, rfl⟩

theorem getBookById_congr {db db' : DB} (h : db'.books = db.books) (bid : ℕ) :
    getBookById db' bid = getBookById db bid := by
  unfold getBookById
  rw [h]

/-! ### Branch characterizations of `borrow_book_by_patron` -/

theorem borrow_eq_invalid (iOk uOk : Bool) (db : DB) (now : ℤ) {p : String} (bid : ℕ)
    (hv : validPatronId p = false) :
    borrow_book_by_patron iOk uOk db now p bid =
      (false, "Invalid patron ID. Must be exactly 6 digits.", db) := by
  unfold borrow_book_by_patron
  simp [hv]

theorem borrow_eq_noBook (iOk uOk : Bool) {db : DB} (now : ℤ) {p : String} {bid : ℕ}
    (hv : validPatronId p = true) (hfind : getBookById db bid = none) :
    borrow_book_by_patron iOk uOk db now p bid = (false, "Book not found.", db) := by
  unfold borrow_book_by_patron
  simp [hv, hfind]

theorem borrow_eq_notAvail (iOk uOk : Bool) {db : DB} (now : ℤ) {p : String} {bid : ℕ}
    {book : Book} (hv : validPatronId p = true) (hfind : getBookById db bid = some book)
    (hav : book.available_copies ≤ 0) :
    borrow_book_by_patron iOk uOk db now p bid =
      (false, "This book is currently not available.", db) := by
  unfold borrow_book_by_patron
  simp [hv, hfind, hav]

theorem borrow_eq_limit (iOk uOk : Bool) {db : DB} (now : ℤ) {p : String} {bid : ℕ}
    {book : Book} (hv : validPatronId p = true) (hfind : getBookById db bid = some book)
    (hav : 0 < book.available_copies) (hcnt : 5 ≤ getPatronBorrowCount db p) :
    borrow_book_by_patron iOk uOk db now p bid =
      (false, "You have reached the maximum borrowing limit of 5 books.", db) := by
  unfold borrow_book_by_patron
  simp [hv, hfind, hcnt, not_le.mpr hav]

theorem borrow_eq_insertFail (uOk : Bool) {db : DB} (now : ℤ) {p : String} {bid : ℕ}
    {book : Book} (hv : validPatronId p = true) (hfind : getBookById db bid = some book)
    (hav : 0 < book.available_copies) (hcnt : getPatronBorrowCount db p < 5) :
    borrow_book_by_patron false uOk db now p bid =
      (false, "Database error occurred while creating borrow record.", db) := by
  unfold borrow_book_by_patron
  simp [hv, hfind, not_le.mpr hav, not_le.mpr hcnt]

theorem borrow_eq_updateFail {db : DB} (now : ℤ) {p : String} {bid : ℕ}
    {book : Book} (hv : validPatronId p = true) (hfind : getBookById db bid = some book)
    (hav : 0 < book.available_copies) (hcnt : getPatronBorrowCount db p < 5) :
    borrow_book_by_patron true false db now p bid =
      (false, "Database error occurred while updating book availability.",
        insertBorrowRecord db p bid now (now + 14)) := by
  unfold borrow_book_by_patron
  simp [hv, hfind, not_le.mpr hav, not_le.mpr hcnt]

theorem borrow_eq_success {db : DB} (now : ℤ) {p : String} {bid : ℕ}
    {book : Book} (hv : validPatronId p = true) (hfind : getBookById db bid = some book)
    (hav : 0 < book.available_copies) (hcnt : getPatronBorrowCount db p < 5) :
    borrow_book_by_patron true true db now p bid =
      (true, "Successfully borrowed \"" ++ book.title ++ "\". Due date: " ++
        toString (now + 14) ++ ".",
        updateBookAvailability (insertBorrowRecord db p bid now (now + 14)) bid (-1)) := by
  unfold borrow_book_by_patron
  simp [hv, hfind, not_le.mpr hav, not_le.mpr hcnt]

theorem wf_add_book (insertOk : Bool) (db : DB) (t a i : String) (tc : ℤ)
    (hwf : Wf db) : Wf (add_book_to_catalog insertOk db t a i tc).2.2 := by
  unfold add_book_to_catalog
  repeat' split
  all_goals first | exact hwf | exact wf_insertBook hwf (by omega)

theorem wf_borrow_book (iOk uOk : Bool) (db : DB) (now : ℤ) (p : String)
    (bid : ℕ) (hwf : Wf db) : Wf (borrow_book_by_patron iOk uOk db now p bid).2.2 := by
  by_cases hv : validPatronId p = true
  · cases hfind : getBookById db bid with
    | none => rw [borrow_eq_noBook iOk uOk now hv hfind]; exact hwf
    | some book =>
      by_cases hav : book.available_copies ≤ 0
      · rw [borrow_eq_notAvail iOk uOk now hv hfind hav]; exact hwf
      · rw [not_le] at hav
        by_cases hcnt : 5 ≤ getPatronBorrowCount db p
        · rw [borrow_eq_limit iOk uOk now hv hfind hav hcnt]; exact hwf
        · rw [not_le] at hcnt
          cases iOk with
          | false => rw [borrow_eq_insertFail uOk now hv hfind hav hcnt]; exact hwf
          | true =>
            cases uOk with
            | false => rw [borrow_eq_updateFail now hv hfind hav hcnt]; exact hwf
            | true =>
              rw [borrow_eq_success now hv hfind hav hcnt]
              have hbk := hwf.1 book (getBookById_mem hfind).1
              exact wf_updateBookAvailability hwf hfind (by omega) (by omega)
  · rw [borrow_eq_invalid iOk uOk db now bid (by simpa using hv)]; exact hwf

/-! ### Branch characterizations of `return_book_by_patron` -/

theorem return_eq_invalid (uOk : Bool) (db : DB) (now : ℤ) {p : String} (bid : ℕ)
    (hv : validPatronId p = false) :
    return_book_by_patron uOk db now p bid =
      (false, "Invalid patron ID. Must be exactly 6 digits.", db) := by
  unfold return_book_by_patron
  simp [hv]

theorem return_eq_noBook (uOk : Bool) {db : DB} (now : ℤ) {p : String} {bid : ℕ}
    (hv : validPatronId p = true) (hfind : getBookById db bid = none) :
    return_book_by_patron uOk db now p bid = (false, "Book not found.", db) := by
  unfold return_book_by_patron
  simp [hv, hfind]

theorem return_eq_noActive (uOk : Bool) {db : DB} (now : ℤ) {p : String} {bid : ℕ}
    {book : Book} (hv : validPatronId p = true) (hfind : getBookById db bid = some book)
    (hupd : updateBorrowRecordReturnDate db p bid now = none) :
    return_book_by_patron uOk db now p bid =
      (false, "No active borrow record found for this patron and book.", db) := by
  unfold return_book_by_patron
  simp [hv, hfind, hupd]

theorem return_eq_skip (uOk : Bool) {db : DB} {now : ℤ} {p : String} {bid : ℕ}
    {book : Book} {r : BorrowRecord} {db1 : DB}
    (hv : validPatronId p = true) (hfind : getBookById db bid = some book)
    (hupd : updateBorrowRecordReturnDate db p bid now = some (r, db1))
    (hfull : book.total_copies ≤ book.available_copies) :
    (return_book_by_patron uOk db now p bid).1 = true ∧
    (return_book_by_patron uOk db now p bid).2.2 = db1 := by
  have hsh := updateBorrowRecordReturnDate_books hupd
  have hfresh : getBookById db1 bid = some book := by
    rw [getBookById_congr hsh.1]
    exact hfind
  unfold return_book_by_patron
  rw [hv]
  simp only [Bool.not_true, Bool.false_eq_true, if_false, hfind, hupd, hfresh]
  rw [if_neg (not_lt.mpr hfull)]
  by_cases hc : (decide (0 < (Option.map (fun due => 0 ⊔ (now - due)) r.due_date.parse).getD 0) &&
      decide (0 < computeFee ((Option.map (fun due => 0 ⊔ (now - due)) r.due_date.parse).getD 0))) = true <;>
    simp [hc]

theorem return_eq_updateFail {db : DB} {now : ℤ} {p : String} {bid : ℕ}
    {book : Book} {r : BorrowRecord} {db1 : DB}
    (hv : validPatronId p = true) (hfind : getBookById db bid = some book)
    (hupd : updateBorrowRecordReturnDate db p bid now = some (r, db1))
    (hroom : book.available_copies < book.total_copies) :
    return_book_by_patron false db now p bid =
      (false, "Database error while updating book availability.", db1) := by
  have hsh := updateBorrowRecordReturnDate_books hupd
  have hfresh : getBookById db1 bid = some book := by
    rw [getBookById_congr hsh.1]
    exact hfind
  unfold return_book_by_patron
  rw [hv]
  simp only [Bool.not_true, Bool.false_eq_true, if_false, hfind, hupd, hfresh]
  rw [if_pos hroom]
  simp

theorem return_eq_incr {db : DB} {now : ℤ} {p : String} {bid : ℕ}
    {book : Book} {r : BorrowRecord} {db1 : DB}
    (hv : validPatronId p = true) (hfind : getBookById db bid = some book)
    (hupd : updateBorrowRecordReturnDate db p bid now = some (r, db1))
    (hroom : book.available_copies < book.total_copies) :
    (return_book_by_patron true db now p bid).1 = true ∧
    (return_book_by_patron true db now p bid).2.2 = updateBookAvailability db1 bid 1 := by
  have hsh := updateBorrowRecordReturnDate_books hupd
  have hfresh : getBookById db1 bid = some book := by
    rw [getBookById_congr hsh.1]
    exact hfind
  unfold return_book_by_patron
  rw [hv]
  simp only [Bool.not_true, Bool.false_eq_true, if_false, hfind, hupd, hfresh]
  rw [if_pos hroom]
  by_cases hc : (decide (0 < (Option.map (fun due => 0 ⊔ (now - due)) r.due_date.parse).getD 0) &&
      decide (0 < computeFee ((Option.map (fun due => 0 ⊔ (now - due)) r.due_date.parse).getD 0))) = true <;>
    simp [hc]

theorem wf_return_book (uOk : Bool) (db : DB) (now : ℤ) (p : String)
    (bid : ℕ) (hwf : Wf db) : Wf (return_book_by_patron uOk db now p bid).2.2 := by
  by_cases hv : validPatronId p = true
  · cases hfind : getBookById db bid with
    | none => rw [return_eq_noBook uOk now hv hfind]; exact hwf
    | some book =>
      cases hupd : updateBorrowRecordReturnDate db p bid now with
      | none => rw [return_eq_noActive uOk now hv hfind hupd]; exact hwf
      | some pr =>
        obtain ⟨r, db1⟩ := pr
        have hsh := updateBorrowRecordReturnDate_books hupd
        have hwf1 : Wf db1 := by
          constructor
          · rw [hsh.1, hsh.2]
            exact hwf.1
          · rw [hsh.1]
            exact hwf.2
        by_cases hroom : book.available_copies < book.total_copies
        · cases uOk with
          | false => rw [return_eq_updateFail hv hfind hupd hroom]; exact hwf1
          | true =>
            rw [(return_eq_incr hv hfind hupd hroom).2]
            have hfresh : getBookById db1 bid = some book := by
              rw [getBookById_congr hsh.1]
              exact hfind
            have hbk := hwf1.1 book (getBookById_mem hfresh).1
            exact wf_updateBookAvailability hwf1 hfresh (by omega) (by omega)
        · rw [(return_eq_skip uOk hv hfind hupd (not_lt.mp hroom)).2]
          exact hwf1
  · rw [return_eq_invalid uOk db now bid (by simpa using hv)]; exact hwf

theorem wf_applyOp (db : DB) (op : Op) (hwf : Wf db) : Wf (applyOp db op) := by
  cases op with
  | add insertOk title author isbn tc => exact wf_add_book insertOk db title author isbn tc hwf
  | borrow iOk uOk p bid now => exact wf_borrow_book iOk uOk db now p bid hwf
  | ret uOk p bid now => exact wf_return_book uOk db now p bid hwf

theorem wf_foldl (ops : List Op) : ∀ db : DB, Wf db → Wf (ops.foldl applyOp db) := by
  induction ops with
  | nil => intro db h; exact h
  | cons op rest ih => intro db h; exact ih _ (wf_applyOp db op h)

theorem wf_applySeq (ops : List Op) : Wf (applySeq ops) :=
  wf_foldl ops DB.empty wf_empty

/-! ### Borrow-count lemmas -/

theorem getPatronBorrowCount_insert (db : DB) (p : String) (bid : ℕ) (bd dd : ℤ) :
    getPatronBorrowCount (insertBorrowRecord db p bid bd dd) p =
      getPatronBorrowCount db p + 1 := by
  unfold getPatronBorrowCount insertBorrowRecord
  simp [List.filter_append, BorrowRecord.isActive, PyDate.truthy]

theorem getPatronBorrowCount_updateAvail (db : DB) (bid : ℕ) (δ : ℤ) (p : String) :
    getPatronBorrowCount (updateBookAvailability db bid δ) p =
      getPatronBorrowCount db p := rfl

/-! ## Claims -/

/-- C1: for every sequence of addBook, borrow and return operations, every
book's `available_copies` stays within `0 ≤ available_copies ≤
total_copies`; borrow refuses to decrement when `available_copies ≤ 0`;
return increments by 1 only when `available_copies < total_copies`, and
otherwise skips the increment while still succeeding. -/
theorem borrowReturn_availability_bounds :
    (∀ ops : List Op, AvailOk (applySeq ops)) ∧
    (∀ (iOk uOk : Bool) (db : DB) (now : ℤ) (p : String) (bid : ℕ) (book : Book),
      validPatronId p = true → getBookById db bid = some book →
      book.available_copies ≤ 0 →
      borrow_book_by_patron iOk uOk db now p bid =
        (false, "This book is currently not available.", db)) ∧
    (∀ (uOk : Bool) (db : DB) (now : ℤ) (p : String) (bid : ℕ) (book : Book)
      (r : BorrowRecord) (db1 : DB),
      validPatronId p = true → getBookById db bid = some book →
      updateBorrowRecordReturnDate db p bid now = some (r, db1) →
      (book.total_copies ≤ book.available_copies →
        (return_book_by_patron uOk db now p bid).1 = true ∧
        ((return_book_by_patron uOk db now p bid).2.2).books = db.books) ∧
      (book.available_copies < book.total_copies →
        (return_book_by_patron true db now p bid).1 = true ∧
        (return_book_by_patron true db now p bid).2.2 =
          updateBookAvailability db1 bid 1)) := by
  refine ⟨?_, ?_, ?_⟩
  · intro ops
    exact (wf_applySeq ops).availOk
  · intro iOk uOk db now p bid book hv hfind hav
    exact borrow_eq_notAvail iOk uOk now hv hfind hav
  · intro uOk db now p bid book r db1 hv hfind hupd
    constructor
    · intro hfull
      obtain ⟨h1, h2⟩ := return_eq_skip uOk hv hfind hupd hfull
      refine ⟨h1, ?_⟩
      rw [h2, (updateBorrowRecordReturnDate_books hupd).1]
    · intro hroom
      exact return_eq_incr hv hfind hupd hroom

/-- Witness for C1 at concrete inputs: a three-operation run keeps the
bound, and a borrow against a zero-availability book is refused. -/
theorem borrowReturn_availability_bounds_witness :
    AvailOk (applySeq [Op.add true "Title" "Auth" "1234567890123" 3,
      Op.borrow true true "123456" 1 0, Op.ret true "123456" 1 5]) ∧
    validPatronId "123456" = true ∧
    getBookById ⟨[⟨1, "B", "A", "1111111111111", 2, 0⟩], [], 2⟩ 1 =
      some ⟨1, "B", "A", "1111111111111", 2, 0⟩ ∧
    borrow_book_by_patron true true ⟨[⟨1, "B", "A", "1111111111111", 2, 0⟩], [], 2⟩ 7 "123456" 1 =
      (false, "This book is currently not available.",
        ⟨[⟨1, "B", "A", "1111111111111", 2, 0⟩], [], 2⟩) := by
  refine ⟨borrowReturn_availability_bounds.1 _, by decide, by decide, ?_⟩
  exact borrowReturn_availability_bounds.2.1 true true
    ⟨[⟨1, "B", "A", "1111111111111", 2, 0⟩], [], 2⟩ 7 "123456" 1
    ⟨1, "B", "A", "1111111111111", 2, 0⟩ (by decide) (by decide) (by decide)

/-- C2: for every non-negative daysOverdue the implemented fee is 0.00 at
zero days and otherwise equals the spec formula
`min(min(d, 7) * 0.50 + max(d − 7, 0) * 1.00, 15.00)` rounded to 2
decimals; at 10 days it is exactly 6.50. -/
theorem fee_formula_exact (d : ℤ) (hd : 0 ≤ d) :
    (d = 0 → computeFee d = 0) ∧
    (0 < d → computeFee d = specFeeFormula d) ∧
    computeFee 10 = 6.50 := by
  refine ⟨?_, ?_, ?_⟩
  · intro h0
    subst h0
    rfl
  · intro hpos
    unfold computeFee specFeeFormula
    rw [if_neg (by omega)]
  · rw [computeFee_eq_feeCents]
    have h : feeCents (Int.toNat 10) = 650 := by decide
    rw [h]
    norm_num

/-- Witness for C2 at `d = 10`. -/
theorem fee_formula_exact_witness :
    (0 : ℤ) ≤ 10 ∧ computeFee 10 = 6.50 :=
  ⟨by norm_num, (fee_formula_exact 10 (by norm_num)).2.2⟩

/-- C3: a patron at or over 5 active borrows is refused with the
maximum-limit message and the store is unchanged; any successful borrow
leaves the patron's active-borrow count at 5 or below. -/
theorem borrow_limit_enforced :
    (∀ (iOk uOk : Bool) (db : DB) (now : ℤ) (p : String) (bid : ℕ) (book : Book),
      validPatronId p = true → getBookById db bid = some book →
      0 < book.available_copies → 5 ≤ getPatronBorrowCount db p →
      borrow_book_by_patron iOk uOk db now p bid =
        (false, "You have reached the maximum borrowing limit of 5 books.", db)) ∧
    (∀ (iOk uOk : Bool) (db : DB) (now : ℤ) (p : String) (bid : ℕ),
      (borrow_book_by_patron iOk uOk db now p bid).1 = true →
      getPatronBorrowCount (borrow_book_by_patron iOk uOk db now p bid).2.2 p ≤ 5) := by
  constructor
  · intro iOk uOk db now p bid book hv hfind hav hcnt
    exact borrow_eq_limit iOk uOk now hv hfind hav hcnt
  · intro iOk uOk db now p bid hsucc
    by_cases hv : validPatronId p = true
    · cases hfind : getBookById db bid with
      | none =>
        rw [borrow_eq_noBook iOk uOk now hv hfind] at hsucc
        simp at hsucc
      | some book =>
        by_cases hav : book.available_copies ≤ 0
        · rw [borrow_eq_notAvail iOk uOk now hv hfind hav] at hsucc
          simp at hsucc
        · rw [not_le] at hav
          by_cases hcnt : 5 ≤ getPatronBorrowCount db p
          · rw [borrow_eq_limit iOk uOk now hv hfind hav hcnt] at hsucc
            simp at hsucc
          · rw [not_le] at hcnt
            cases iOk with
            | false =>
              rw [borrow_eq_insertFail uOk now hv hfind hav hcnt] at hsucc
              simp at hsucc
            | true =>
              cases uOk with
              | false =>
                rw [borrow_eq_updateFail now hv hfind hav hcnt] at hsucc
                simp at hsucc
              | true =>
                rw [borrow_eq_success now hv hfind hav hcnt]
                rw [getPatronBorrowCount_updateAvail, getPatronBorrowCount_insert]
                omega
    · rw [borrow_eq_invalid iOk uOk db now bid (by simpa using hv)] at hsucc
      simp at hsucc

/-- Witness for C3: a patron holding 5 active records is refused even
though a copy is available. -/
theorem borrow_limit_enforced_witness :
    validPatronId "222222" = true ∧
    getBookById ⟨[⟨1, "B", "A", "1111111111111", 3, 2⟩],
        [⟨"222222", 2, 0, .valid 14, .null⟩, ⟨"222222", 3, 0, .valid 14, .null⟩,
         ⟨"222222", 4, 0, .valid 14, .null⟩, ⟨"222222", 5, 0, .valid 14, .null⟩,
         ⟨"222222", 6, 0, .valid 14, .null⟩], 2⟩ 1 =
      some ⟨1, "B", "A", "1111111111111", 3, 2⟩ ∧
    borrow_book_by_patron true true ⟨[⟨1, "B", "A", "1111111111111", 3, 2⟩],
        [⟨"222222", 2, 0, .valid 14, .null⟩, ⟨"222222", 3, 0, .valid 14, .null⟩,
         ⟨"222222", 4, 0, .valid 14, .null⟩, ⟨"222222", 5, 0, .valid 14, .null⟩,
         ⟨"222222", 6, 0, .valid 14, .null⟩], 2⟩ 0 "222222" 1 =
      (false, "You have reached the maximum borrowing limit of 5 books.",
        ⟨[⟨1, "B", "A", "1111111111111", 3, 2⟩],
        [⟨"222222", 2, 0, .valid 14, .null⟩, ⟨"222222", 3, 0, .valid 14, .null⟩,
         ⟨"222222", 4, 0, .valid 14, .null⟩, ⟨"222222", 5, 0, .valid 14, .null⟩,
         ⟨"222222", 6, 0, .valid 14, .null⟩], 2⟩) := by
  refine ⟨by decide, by decide, ?_⟩
  exact borrow_limit_enforced.1 true true _ 0 "222222" 1
    ⟨1, "B", "A", "1111111111111", 3, 2⟩ (by decide) (by decide) (by decide) (by decide)

/-- C5: in borrow, when the record insert succeeds but the availability
decrement fails, the caller sees failure while the inserted BorrowRecord
stays in storage; when the insert itself fails, the caller sees failure
and the store — availability included — is untouched. -/
theorem borrow_partial_failure (db : DB) (now : ℤ) (p : String) (bid : ℕ) (book : Book)
    (hv : validPatronId p = true) (hfind : getBookById db bid = some book)
    (hav : 0 < book.available_copies) (hcnt : getPatronBorrowCount db p < 5) :
    (borrow_book_by_patron true false db now p bid =
        (false, "Database error occurred while updating book availability.",
          insertBorrowRecord db p bid now (now + 14)) ∧
      (⟨p, bid, now, .valid (now + 14), .null⟩ : BorrowRecord) ∈
        (borrow_book_by_patron true false db now p bid).2.2.records) ∧
    (∀ uOk : Bool, borrow_book_by_patron false uOk db now p bid =
      (false, "Database error occurred while creating borrow record.", db)) := by
  constructor
  · have heq := borrow_eq_updateFail now hv hfind hav hcnt
    refine ⟨heq, ?_⟩
    rw [heq]
    unfold insertBorrowRecord
    simp
  · intro uOk
    exact borrow_eq_insertFail uOk now hv hfind hav hcnt

/-- Witness for C5: with one available copy, insert-then-failed-decrement
reports failure yet the record is stored; failed insert leaves the store
as it was. -/
theorem borrow_partial_failure_witness :
    validPatronId "123456" = true ∧
    getBookById ⟨[⟨1, "B", "A", "1111111111111", 3, 1⟩], [], 2⟩ 1 =
      some ⟨1, "B", "A", "1111111111111", 3, 1⟩ ∧
    (borrow_book_by_patron true false ⟨[⟨1, "B", "A", "1111111111111", 3, 1⟩], [], 2⟩
        0 "123456" 1 =
      (false, "Database error occurred while updating book availability.",
        insertBorrowRecord ⟨[⟨1, "B", "A", "1111111111111", 3, 1⟩], [], 2⟩ "123456" 1 0 14) ∧
      (⟨"123456", 1, 0, .valid 14, .null⟩ : BorrowRecord) ∈
        (borrow_book_by_patron true false ⟨[⟨1, "B", "A", "1111111111111", 3, 1⟩], [], 2⟩
          0 "123456" 1).2.2.records) := by
  refine ⟨by decide, by decide, ?_⟩
  exact (borrow_partial_failure ⟨[⟨1, "B", "A", "1111111111111", 3, 1⟩], [], 2⟩ 0 "123456" 1
    ⟨1, "B", "A", "1111111111111", 3, 1⟩ (by decide) (by decide) (by decide) (by decide)).1

/-- C6: adding a book whose ISBN already exists performs no insert and
returns success with the very same message a fresh successful add
produces: the operation is idempotent per ISBN. -/
theorem addBook_isbn_idempotent (db : DB) (t a i : String) (tc : ℤ) (b : Book)
    (ht : (t.data.isEmpty || (pyStrip t).data.isEmpty) = false)
    (htl : pyLen (pyStrip t) ≤ 200)
    (ha : (a.data.isEmpty || (pyStrip a).data.isEmpty) = false)
    (hal : pyLen (pyStrip a) ≤ 100)
    (hi : (pyLen i == 13 && pyIsDigit i) = true) (htc : 0 < tc)
    (hdup : getBookByIsbn db i = some b) :
    (∀ insertOk : Bool,
      add_book_to_catalog insertOk db t a i tc = (true, addSuccessMsg t, db)) ∧
    (∀ db2 : DB, getBookByIsbn db2 i = none →
      add_book_to_catalog true db2 t a i tc =
        (true, addSuccessMsg t, insertBook db2 (pyStrip t) (pyStrip a) i tc tc)) := by
  constructor
  · intro insertOk
    unfold add_book_to_catalog
    simp [ht, hi, hdup, not_lt.mpr htl, not_lt.mpr hal, ha, not_le.mpr htc]
  · intro db2 hfresh
    unfold add_book_to_catalog
    simp [ht, hi, hfresh, not_lt.mpr htl, not_lt.mpr hal, ha, not_le.mpr htc]

/-- Witness for C6: re-adding an existing ISBN touches nothing and yields
the fresh-add success message. -/
theorem addBook_isbn_idempotent_witness :
    getBookByIsbn ⟨[⟨1, "B", "A", "1234567890123", 3, 3⟩], [], 2⟩ "1234567890123" =
      some ⟨1, "B", "A", "1234567890123", 3, 3⟩ ∧
    add_book_to_catalog true ⟨[⟨1, "B", "A", "1234567890123", 3, 3⟩], [], 2⟩
        "B" "A" "1234567890123" 3 =
      (true, addSuccessMsg "B", ⟨[⟨1, "B", "A", "1234567890123", 3, 3⟩], [], 2⟩) := by
  refine ⟨by decide, ?_⟩
  exact (addBook_isbn_idempotent ⟨[⟨1, "B", "A", "1234567890123", 3, 3⟩], [], 2⟩
    "B" "A" "1234567890123" 3 ⟨1, "B", "A", "1234567890123", 3, 3⟩
    (by decide) (by decide) (by decide) (by decide) (by decide) (by decide) (by decide)).1 true

/-- C7: the quote selects its as-of date from the resolved record: at a
set return date the fee is historical (as of that return date); on an
active record it is as of today; with no record or no due date it is a
zero-fee quote with an explanatory status. -/
theorem quote_asof_selection (db : DB) (today : ℤ) (p : String) (bid : ℕ) (book : Book)
    (hv : validPatronId p = true) (hfind : getBookById db bid = some book) :
    (∀ (row : BorrowRecord) (due : ℤ),
      readBorrowRecord db p bid = some row → row.due_date = PyDate.valid due →
      (∀ rd : ℤ, row.return_date = PyDate.valid rd →
        calculate_late_fee_for_book db today p bid =
          .ok ⟨computeFee (max 0 (rd - due)), max 0 (rd - due),
            "Returned; historical fee at return date calculated."⟩) ∧
      (row.return_date = PyDate.null →
        calculate_late_fee_for_book db today p bid =
          .ok ⟨computeFee (max 0 (today - due)), max 0 (today - due),
            "Not yet returned; fee calculated as of today."⟩)) ∧
    (readBorrowRecord db p bid = none →
      calculate_late_fee_for_book db today p bid = .ok noRecordQuote) ∧
    (∀ row : BorrowRecord, readBorrowRecord db p bid = some row →
      row.due_date = PyDate.null →
      calculate_late_fee_for_book db today p bid = .ok noRecordQuote) := by
  refine ⟨?_, ?_, ?_⟩
  · intro row due hrow hdue
    constructor
    · intro rd hrd
      unfold calculate_late_fee_for_book
      simp [hv, hfind, hrow, hdue, hrd, PyDate.truthy, PyDate.parse]
    · intro hrd
      unfold calculate_late_fee_for_book
      simp [hv, hfind, hrow, hdue, hrd, PyDate.truthy, PyDate.parse]
  · intro hrow
    unfold calculate_late_fee_for_book
    simp [hv, hfind, hrow]
  · intro row hrow hdue
    unfold calculate_late_fee_for_book
    simp [hv, hfind, hrow, hdue, PyDate.truthy]

/-- Witness for C7: a returned record is charged as of its return date,
and an absent record yields the zero-fee quote. -/
theorem quote_asof_selection_witness :
    validPatronId "123456" = true ∧
    calculate_late_fee_for_book ⟨[⟨1, "B", "A", "1111111111111", 3, 3⟩],
        [⟨"123456", 1, 0, .valid 14, .valid 24⟩], 2⟩ 100 "123456" 1 =
      .ok ⟨computeFee (max 0 ((24 : ℤ) - 14)), max 0 ((24 : ℤ) - 14),
        "Returned; historical fee at return date calculated."⟩ ∧
    calculate_late_fee_for_book ⟨[⟨1, "B", "A", "1111111111111", 3, 3⟩], [], 2⟩
        100 "123456" 1 = .ok noRecordQuote := by
  refine ⟨by decide, ?_, ?_⟩
  · exact ((quote_asof_selection ⟨[⟨1, "B", "A", "1111111111111", 3, 3⟩],
      [⟨"123456", 1, 0, .valid 14, .valid 24⟩], 2⟩ 100 "123456" 1
      ⟨1, "B", "A", "1111111111111", 3, 3⟩ (by decide) (by decide)).1
      ⟨"123456", 1, 0, .valid 14, .valid 24⟩ 14 (by decide) rfl).1 24 rfl
  · exact (quote_asof_selection ⟨[⟨1, "B", "A", "1111111111111", 3, 3⟩], [], 2⟩
      100 "123456" 1 ⟨1, "B", "A", "1111111111111", 3, 3⟩
      (by decide) (by decide)).2.1 rfl

/-- C8: for a fixed due date the fee is monotonically non-decreasing in
the as-of date, and it never exceeds the 15.00 ceiling for any
days-overdue value. -/
theorem fee_monotone_and_capped (due asofA asofB : ℤ) (h : asofA ≤ asofB) :
    computeFee (max 0 (asofA - due)) ≤ computeFee (max 0 (asofB - due)) ∧
    ∀ d : ℤ, computeFee d ≤ 15 :=
  ⟨computeFee_mono (by omega), computeFee_le_15⟩

/-- Witness for C8 at due = 0, as-of dates 3 and 10. -/
theorem fee_monotone_and_capped_witness :
    (3 : ℤ) ≤ 10 ∧
    (computeFee (max 0 ((3 : ℤ) - 0)) ≤ computeFee (max 0 ((10 : ℤ) - 0)) ∧
      ∀ d : ℤ, computeFee d ≤ 15) :=
  ⟨by norm_num, fee_monotone_and_capped 0 3 10 (by norm_num)⟩

/-- C9: whenever the quoted fee is exactly 0, payLateFees fails with the
no-late-fees-owed outcome and performs no gateway call at all. -/
theorem payLateFees_zero_fee_skips_gateway (p : String) (q : FeeQuote)
    (book : Option Book) (gw : GatewayCall → GwReply) (hq : q.fee_amount = 0) :
    pay_late_fees p (some q) book gw = ((false, "No late fees owed.", none), []) := by
  unfold pay_late_fees
  simp [hq]

/-- Witness for C9 with a gateway that would raise if it were contacted. -/
theorem payLateFees_zero_fee_skips_gateway_witness :
    (⟨0, 0, "ok"⟩ : FeeQuote).fee_amount = 0 ∧
    pay_late_fees "123456" (some ⟨0, 0, "ok"⟩) none (fun _ => GwReply.raises) =
      ((false, "No late fees owed.", none), []) :=
  ⟨rfl, payLateFees_zero_fee_skips_gateway "123456" ⟨0, 0, "ok"⟩ none
    (fun _ => GwReply.raises) rfl⟩

/-- C10: the availability check precedes the borrow-limit check: an
existing book with no available copies is refused with the not-available
message for every possible borrow-records table — in particular when the
patron is at or over the 5-book limit — so the patron's borrow count is
never consulted. -/
theorem availability_checked_before_limit (iOk uOk : Bool) (db : DB) (now : ℤ)
    (p : String) (bid : ℕ) (book : Book)
    (hv : validPatronId p = true) (hfind : getBookById db bid = some book)
    (hav : book.available_copies ≤ 0) :
    ∀ recs : List BorrowRecord,
      borrow_book_by_patron iOk uOk { db with records := recs } now p bid =
        (false, "This book is currently not available.", { db with records := recs }) := by
  intro recs
  exact borrow_eq_notAvail iOk uOk now hv hfind hav

/-- Witness for C10: a patron holding 5 active loans still gets the
not-available message on an unavailable book. -/
theorem availability_checked_before_limit_witness :
    validPatronId "333333" = true ∧
    getBookById ⟨[⟨1, "B", "A", "1111111111111", 3, 0⟩], [], 2⟩ 1 =
      some ⟨1, "B", "A", "1111111111111", 3, 0⟩ ∧
    5 ≤ getPatronBorrowCount ⟨[⟨1, "B", "A", "1111111111111", 3, 0⟩],
        [⟨"333333", 2, 0, .valid 14, .null⟩, ⟨"333333", 3, 0, .valid 14, .null⟩,
         ⟨"333333", 4, 0, .valid 14, .null⟩, ⟨"333333", 5, 0, .valid 14, .null⟩,
         ⟨"333333", 6, 0, .valid 14, .null⟩], 2⟩ "333333" ∧
    borrow_book_by_patron true true ⟨[⟨1, "B", "A", "1111111111111", 3, 0⟩],
        [⟨"333333", 2, 0, .valid 14, .null⟩, ⟨"333333", 3, 0, .valid 14, .null⟩,
         ⟨"333333", 4, 0, .valid 14, .null⟩, ⟨"333333", 5, 0, .valid 14, .null⟩,
         ⟨"333333", 6, 0, .valid 14, .null⟩], 2⟩ 0 "333333" 1 =
      (false, "This book is currently not available.",
        ⟨[⟨1, "B", "A", "1111111111111", 3, 0⟩],
        [⟨"333333", 2, 0, .valid 14, .null⟩, ⟨"333333", 3, 0, .valid 14, .null⟩,
         ⟨"333333", 4, 0, .valid 14, .null⟩, ⟨"333333", 5, 0, .valid 14, .null⟩,
         ⟨"333333", 6, 0, .valid 14, .null⟩], 2⟩) := by
  refine ⟨by decide, by decide, by decide, ?_⟩
  exact availability_checked_before_limit true true
    ⟨[⟨1, "B", "A", "1111111111111", 3, 0⟩], [], 2⟩ 0 "333333" 1
    ⟨1, "B", "A", "1111111111111", 3, 0⟩ (by decide) (by decide) (by decide)
    [⟨"333333", 2, 0, .valid 14, .null⟩, ⟨"333333", 3, 0, .valid 14, .null⟩,
     ⟨"333333", 4, 0, .valid 14, .null⟩, ⟨"333333", 5, 0, .valid 14, .null⟩,
     ⟨"333333", 6, 0, .valid 14, .null⟩]

/-- C4, code-level behavior at a malformed due date: the quote function
raises (the line-165 parse sits outside any `try`), while the return
path degrades to a no-late-fee success — so the claimed fault tolerance
holds for returnBook but not for `calculate_late_fee_for_book`. -/
theorem malformed_due_date_divergence :
    calculate_late_fee_for_book
        ⟨[⟨1, "B", "A", "1111111111111", 3, 2⟩],
         [⟨"123456", 1, 80, .malformed, .null⟩], 2⟩ 100 "123456" 1 =
      Except.error "ValueError: invalid isoformat string" ∧
    (return_book_by_patron true
        ⟨[⟨1, "B", "A", "1111111111111", 3, 2⟩],
         [⟨"123456", 1, 80, .malformed, .null⟩], 2⟩ 100 "123456" 1).1 = true ∧
    (return_book_by_patron true
        ⟨[⟨1, "B", "A", "1111111111111", 3, 2⟩],
         [⟨"123456", 1, 80, .malformed, .null⟩], 2⟩ 100 "123456" 1).2.1 =
      "Returned \"B\" on time. No late fee." :=
  ⟨rfl, rfl, rfl⟩

end LibSys
